import Mathlib

/-!
Shallow embedding of the Zenvexa API platform client script
(`static/js/main.js`).  The script's pure validation logic, the three form
submit handlers, the password-strength estimator, the alert presenter, the
clipboard-copy flows and the per-field visual-state primitives are modelled
as executable Lean functions; DOM side effects become explicit record
values (class flags, alert lists, reset flags).
-/

/-- Characters matched by the JavaScript regex class `\s` (ECMAScript
WhiteSpace plus LineTerminator), which is also the set removed by
`String.prototype.trim()`. -/
def isJsSpace (c : Char) : Bool :=
  c == '\t' || c == '\n' || c == '\x0b' || c == '\x0c' || c == '\r' || c == ' ' ||
  c == '\u00A0' || c == '\u1680' ||
  (decide ('\u2000' ≤ c) && decide (c ≤ '\u200A')) ||
  c == '\u2028' || c == '\u2029' || c == '\u202F' || c == '\u205F' ||
  c == '\u3000' || c == '\uFEFF'

/-- JavaScript `value.trim()` on a character list: strip leading and
trailing whitespace. -/
def jsTrimL (cs : List Char) : List Char :=
  ((cs.dropWhile isJsSpace).reverse.dropWhile isJsSpace).reverse

/-- JavaScript `value.trim()`. -/
def jsTrim (s : String) : String :=
  String.mk (jsTrimL s.toList)

/-- One character of the regex class `[^\s@]`: not whitespace, not `@`. -/
def emailCharOk (c : Char) : Bool :=
  !isJsSpace c && c != '@'

/-- The regex `^[^\s@]+@[^\s@]+\.[^\s@]+$` from `validateEmail`, on a
character list.  Since `[^\s@]` excludes `@`, a match splits the string at
its first `@`: a non-empty local part of `[^\s@]` characters, the `@`, and
a domain part of `[^\s@]` characters containing a literal `.` that is
neither its first nor its last character (the `[^\s@]+` on either side of
`\.` may themselves contain further dots, so any interior dot witnesses a
match). -/
def validateEmailL (cs : List Char) : Bool :=
  match cs.dropWhile (· != '@') with
  | '@' :: domainPart =>
      let localPart := cs.takeWhile (· != '@')
      !localPart.isEmpty && localPart.all emailCharOk &&
      (!domainPart.isEmpty && domainPart.all emailCharOk &&
        ((domainPart.drop 1).dropLast.contains '.'))
  | _ => false

/-- `validateEmail` from `main.js`: test the email regex against the raw
string. -/
def validateEmail (email : String) : Bool :=
  validateEmailL email.toList

/-- `validatePassword` from `main.js`: `password.length >= 8`. -/
def validatePassword (password : String) : Bool :=
  decide (8 ≤ password.length)

/-- The tri-state visual status of one form field: the `error` class with
an error message shown, the `success` class, or neither. -/
inductive FieldState where
  | neutral : FieldState
  | error : String → FieldState
  | success : FieldState
deriving DecidableEq

/-- Whether a field state is an error state (with any message). -/
def FieldState.isError : FieldState → Bool
  | .error _ => true
  | _ => false

/-- The `error` / `success` CSS classes carried by one input element. -/
structure InputClasses where
  hasError : Bool
  hasSuccess : Bool
deriving DecidableEq

/-- Class effect of `showError`: `classList.add('error')`,
`classList.remove('success')`. -/
def showErrorClasses (_ : InputClasses) : InputClasses :=
  { hasError := true, hasSuccess := false }

/-- Class effect of `showSuccess`: `classList.remove('error')`,
`classList.add('success')`. -/
def showSuccessClasses (_ : InputClasses) : InputClasses :=
  { hasError := false, hasSuccess := true }

/-- Class effect of `clearValidation`: `classList.remove('error', 'success')`. -/
def clearValidationClasses (_ : InputClasses) : InputClasses :=
  { hasError := false, hasSuccess := false }

/-- One call of a field-validation primitive on a given input. -/
inductive ValidationOp where
  | opError (message : String)
  | opSuccess
  | opClear
deriving DecidableEq

/-- Apply one primitive's class effect to an input element. -/
def applyValidationOp (i : InputClasses) : ValidationOp → InputClasses
  | .opError _ => showErrorClasses i
  | .opSuccess => showSuccessClasses i
  | .opClear => clearValidationClasses i

/-- Run a sequence of field-validation primitives on an initially neutral
input element. -/
def runValidationOps (ops : List ValidationOp) : InputClasses :=
  ops.foldl applyValidationOp { hasError := false, hasSuccess := false }

/-- The `.error-message` element inside a form group: its text and whether
the `show` class is present. -/
structure ErrorMessageEl where
  text : String
  visible : Bool
deriving DecidableEq

/-- The DOM neighbourhood a field primitive touches: the input's classes
and the result of `input.closest('.form-group')` — `none` when no
`.form-group` ancestor exists, otherwise the group's optional
`.error-message` child. -/
structure FieldDom where
  input : InputClasses
  formGroup : Option (Option ErrorMessageEl)
deriving DecidableEq

/-- `showError(input, message)`.  `formGroup.querySelector` throws a
TypeError when `closest` returned null (modelled as `none`, before any
class change); a missing `.error-message` child is tolerated and the
message update skipped. -/
def showError (d : FieldDom) (message : String) : Option FieldDom :=
  match d.formGroup with
  | none => none
  | some errorElement =>
      some { input := showErrorClasses d.input,
             formGroup := some (errorElement.map
               (fun _ => { text := message, visible := true })) }

/-- `showSuccess(input)`: same `.form-group` requirement; hides the error
message when present. -/
def showSuccess (d : FieldDom) : Option FieldDom :=
  match d.formGroup with
  | none => none
  | some errorElement =>
      some { input := showSuccessClasses d.input,
             formGroup := some (errorElement.map
               (fun e => { e with visible := false })) }

/-- `clearValidation(input)`: same `.form-group` requirement; hides the
error message when present. -/
def clearValidation (d : FieldDom) : Option FieldDom :=
  match d.formGroup with
  | none => none
  | some errorElement =>
      some { input := clearValidationClasses d.input,
             formGroup := some (errorElement.map
               (fun e => { e with visible := false })) }

/-- Kind of an alert toast. -/
inductive AlertKind where
  | success : AlertKind
  | error : AlertKind
  | info : AlertKind
deriving DecidableEq

/-- A `.custom-alert` element: its kind (colour) and message. -/
structure Alert where
  kind : AlertKind
  message : String
deriving DecidableEq

/-- `showAlert(type, message)` acting on the list of `.custom-alert`
elements attached to the document: every existing alert is removed
(`existingAlerts.forEach(alert => alert.remove())`), then the new one is
appended to the body. -/
def showAlert (alerts : List Alert) (type : AlertKind) (message : String) :
    List Alert :=
  let afterRemoval : List Alert := alerts.filter (fun _ => false)
  afterRemoval ++ [{ kind := type, message := message }]

/-- Events that change the set of attached alerts: a `showAlert` call, or
the removal of one alert (its 5000 ms auto-dismiss timer firing, or a
click of its close button — both run `alert.remove()`). -/
inductive AlertEvent where
  | showCall (type : AlertKind) (message : String)
  | dismiss (a : Alert)
deriving DecidableEq

/-- Apply one alert event to the attached-alert list. -/
def applyAlertEvent (alerts : List Alert) : AlertEvent → List Alert
  | .showCall t m => showAlert alerts t m
  | .dismiss a => alerts.erase a

/-- Run a sequence of alert events starting from a document with no
alert. -/
def runAlertEvents (events : List AlertEvent) : List Alert :=
  events.foldl applyAlertEvent []

/-- Field values of the contact form at submit time. -/
structure ContactInput where
  name : String
  email : String
  subject : String
  message : String
deriving DecidableEq

/-- Observable outcome of one contact-form submission: the final visual
state of each field, the alerts shown by the handler, and whether
`contactForm.reset()` ran. -/
structure ContactResult where
  nameState : FieldState
  emailState : FieldState
  subjectState : FieldState
  messageState : FieldState
  alerts : List Alert
  didReset : Bool
deriving DecidableEq

/-- Contact name check: blank after trim → required error, else success. -/
def contactNameState (v : String) : FieldState :=
  if jsTrim v = "" then .error "Name is required" else .success

/-- Contact email check: blank → required error; raw value failing the
regex → invalid error; else success. -/
def contactEmailState (v : String) : FieldState :=
  if jsTrim v = "" then .error "Email is required"
  else if !validateEmail v then .error "Please enter a valid email"
  else .success

/-- Contact subject check: the raw value (no trim) must be non-empty. -/
def contactSubjectState (v : String) : FieldState :=
  if v = "" then .error "Please select a subject" else .success

/-- Contact message check: blank → required error; trimmed length < 10 →
length error; else success. -/
def contactMessageState (v : String) : FieldState :=
  if jsTrim v = "" then .error "Message is required"
  else if (jsTrim v).length < 10 then .error "Message must be at least 10 characters"
  else .success

/-- The contact-form submit handler.  `isValid` is exactly "no field took
the `showError` branch"; when valid the handler shows one success alert,
resets the form and runs `clearValidation` on every field (states become
neutral); when invalid it shows no alert and leaves the per-field states
as computed. -/
def contactSubmit (i : ContactInput) : ContactResult :=
  if contactNameState i.name = FieldState.success ∧
     contactEmailState i.email = FieldState.success ∧
     contactSubjectState i.subject = FieldState.success ∧
     contactMessageState i.message = FieldState.success then
    { nameState := .neutral, emailState := .neutral,
      subjectState := .neutral, messageState := .neutral,
      alerts := [{ kind := .success,
                   message := "Thank you! Your message has been sent successfully." }],
      didReset := true }
  else
    { nameState := contactNameState i.name,
      emailState := contactEmailState i.email,
      subjectState := contactSubjectState i.subject,
      messageState := contactMessageState i.message,
      alerts := [],
      didReset := false }

/-- Field values of the login form at submit time. -/
structure LoginInput where
  email : String
  password : String
deriving DecidableEq

/-- Observable outcome of one login-form submission. -/
structure LoginResult where
  emailState : FieldState
  passwordState : FieldState
  alerts : List Alert
deriving DecidableEq

/-- Login email check (same logic as the contact form's, tested against
the raw value). -/
def loginEmailState (v : String) : FieldState :=
  if jsTrim v = "" then .error "Email is required"
  else if !validateEmail v then .error "Please enter a valid email"
  else .success

/-- Login password check: non-blank only. -/
def loginPasswordState (v : String) : FieldState :=
  if jsTrim v = "" then .error "Password is required" else .success

/-- The login-form submit handler: valid → one info alert, no reset and no
clearing; invalid → no alert. -/
def loginSubmit (i : LoginInput) : LoginResult :=
  if loginEmailState i.email = FieldState.success ∧
     loginPasswordState i.password = FieldState.success then
    { emailState := loginEmailState i.email,
      passwordState := loginPasswordState i.password,
      alerts := [{ kind := .info,
                   message := "Login functionality would be handled by your backend." }] }
  else
    { emailState := loginEmailState i.email,
      passwordState := loginPasswordState i.password,
      alerts := [] }

/-- Field values of the signup form at submit time. -/
structure SignupInput where
  name : String
  email : String
  password : String
  confirm : String
deriving DecidableEq

/-- Observable outcome of one signup-form submission. -/
structure SignupResult where
  nameState : FieldState
  emailState : FieldState
  passwordState : FieldState
  confirmState : FieldState
  alerts : List Alert
  didReset : Bool
deriving DecidableEq

/-- Signup name check: non-blank. -/
def signupNameState (v : String) : FieldState :=
  if jsTrim v = "" then .error "Name is required" else .success

/-- Signup email check (same logic as the other forms, raw value against
the regex). -/
def signupEmailState (v : String) : FieldState :=
  if jsTrim v = "" then .error "Email is required"
  else if !validateEmail v then .error "Please enter a valid email"
  else .success

/-- Signup password check: blank → required error; `validatePassword`
failing (length < 8) → length error; else success. -/
def signupPasswordState (v : String) : FieldState :=
  if jsTrim v = "" then .error "Password is required"
  else if !validatePassword v then .error "Password must be at least 8 characters"
  else .success

/-- Signup confirm check: blank → confirm-required error; raw inequality
with the password value → mismatch error; else success. -/
def signupConfirmState (password confirm : String) : FieldState :=
  if jsTrim confirm = "" then .error "Please confirm your password"
  else if password ≠ confirm then .error "Passwords do not match"
  else .success

/-- The signup-form submit handler.  Valid → one success alert and
`signupForm.reset()`, but (unlike the contact form) no `clearValidation`
loop, so the per-field states are kept; invalid → no alert, no reset. -/
def signupSubmit (i : SignupInput) : SignupResult :=
  if signupNameState i.name = FieldState.success ∧
     signupEmailState i.email = FieldState.success ∧
     signupPasswordState i.password = FieldState.success ∧
     signupConfirmState i.password i.confirm = FieldState.success then
    { nameState := signupNameState i.name,
      emailState := signupEmailState i.email,
      passwordState := signupPasswordState i.password,
      confirmState := signupConfirmState i.password i.confirm,
      alerts := [{ kind := .success, message := "Account created successfully!" }],
      didReset := true }
  else
    { nameState := signupNameState i.name,
      emailState := signupEmailState i.email,
      passwordState := signupPasswordState i.password,
      confirmState := signupConfirmState i.password i.confirm,
      alerts := [],
      didReset := false }

/-- The regex test `password.match(/[a-z]/)`. -/
def hasLower (p : String) : Bool :=
  p.toList.any (fun c => decide ('a' ≤ c) && decide (c ≤ 'z'))

/-- The regex test `password.match(/[A-Z]/)`. -/
def hasUpper (p : String) : Bool :=
  p.toList.any (fun c => decide ('A' ≤ c) && decide (c ≤ 'Z'))

/-- The regex test `password.match(/[0-9]/)`. -/
def hasDigit (p : String) : Bool :=
  p.toList.any (fun c => decide ('0' ≤ c) && decide (c ≤ '9'))

/-- The regex test `password.match(/[^a-zA-Z0-9]/)`. -/
def hasSpecial (p : String) : Bool :=
  p.toList.any (fun c =>
    !((decide ('a' ≤ c) && decide (c ≤ 'z')) ||
      (decide ('A' ≤ c) && decide (c ≤ 'Z')) ||
      (decide ('0' ≤ c) && decide (c ≤ '9'))))

/-- The `strength` counter of `updatePasswordStrength`: one point each for
length ≥ 8, both-case letters, a digit, and a non-alphanumeric
character. -/
def strengthScore (password : String) : Nat :=
  (if 8 ≤ password.length then 1 else 0) +
  (if hasLower password && hasUpper password then 1 else 0) +
  (if hasDigit password then 1 else 0) +
  (if hasSpecial password then 1 else 0)

/-- The number of character-class points (all the score's increments
except the length one): a measure of character-class diversity. -/
def classDiversity (password : String) : Nat :=
  (if hasLower password && hasUpper password then 1 else 0) +
  (if hasDigit password then 1 else 0) +
  (if hasSpecial password then 1 else 0)

/-- The CSS class chosen for the strength bar. -/
inductive StrengthLevel where
  | weak : StrengthLevel
  | medium : StrengthLevel
  | strong : StrengthLevel
deriving DecidableEq

/-- `updatePasswordStrength(password)`: an empty password hides the
indicator (`none`); otherwise the bar gets `strength-weak` for score ≤ 1,
`strength-medium` for score ≤ 3 and `strength-strong` otherwise. -/
def updatePasswordStrength (password : String) : Option StrengthLevel :=
  if password.length = 0 then none
  else some (if strengthScore password ≤ 1 then .weak
             else if strengthScore password ≤ 3 then .medium
             else .strong)

/-- Platform outcomes relevant to one copy attempt: whether
`navigator.clipboard && window.isSecureContext` holds, whether the
asynchronous `writeText` promise resolves (versus rejects), and whether
`document.execCommand('copy')` throws. -/
structure CopyEnv where
  clipboardAvailable : Bool
  asyncWriteSucceeds : Bool
  execCommandThrows : Bool
deriving DecidableEq

/-- Observable outcome of one copy trigger: whether `fallbackCopy` ran,
the toasts shown, and whether the button label was swapped to
`Copied!`. -/
structure CopyResult where
  usedFallback : Bool
  toasts : List Alert
  buttonFlashed : Bool
deriving DecidableEq

/-- `fallbackCopy(text)`: hidden-textarea copy.  `execCommand` throwing is
caught and answered with an error toast; otherwise a success toast is
shown. -/
def fallbackCopy (env : CopyEnv) (_text : String) : List Alert :=
  if env.execCommandThrows then [{ kind := .error, message := "Failed to copy" }]
  else [{ kind := .success, message := "Copied to clipboard!" }]

/-- The `[data-copy]` button click handler from `initCopyButtons`:
asynchronous path when available, with its rejection caught and retried
through `fallbackCopy`; synchronous `fallbackCopy` otherwise. -/
def dataCopyClick (env : CopyEnv) (textToCopy : String) : CopyResult :=
  if env.clipboardAvailable then
    if env.asyncWriteSucceeds then
      { usedFallback := false,
        toasts := [{ kind := .success, message := "Copied to clipboard!" }],
        buttonFlashed := false }
    else
      { usedFallback := true, toasts := fallbackCopy env textToCopy,
        buttonFlashed := false }
  else
    { usedFallback := true, toasts := fallbackCopy env textToCopy,
      buttonFlashed := false }

/-- `copyToClipboard(text, button)` used by the key-item Copy buttons:
asynchronous success swaps the button label instead of showing a toast;
a rejection is caught and retried through `fallbackCopy`. -/
def copyToClipboard (env : CopyEnv) (text : String) : CopyResult :=
  if env.clipboardAvailable then
    if env.asyncWriteSucceeds then
      { usedFallback := false, toasts := [], buttonFlashed := true }
    else
      { usedFallback := true, toasts := fallbackCopy env text,
        buttonFlashed := false }
  else
    { usedFallback := true, toasts := fallbackCopy env text,
      buttonFlashed := false }

/-- All four contact checks pass, spelled as the conditions the handler
tests: non-blank name, non-blank email passing the regex, non-empty
subject, non-blank message of trimmed length at least 10. -/
abbrev contactFieldsValid (i : ContactInput) : Prop :=
  jsTrim i.name ≠ "" ∧ (jsTrim i.email ≠ "" ∧ validateEmail i.email = true) ∧
  i.subject ≠ "" ∧ (jsTrim i.message ≠ "" ∧ 10 ≤ (jsTrim i.message).length)

/-- All four signup checks pass, spelled as the conditions the handler
tests. -/
abbrev signupFieldsValid (i : SignupInput) : Prop :=
  jsTrim i.name ≠ "" ∧ (jsTrim i.email ≠ "" ∧ validateEmail i.email = true) ∧
  (jsTrim i.password ≠ "" ∧ validatePassword i.password = true) ∧
  (jsTrim i.confirm ≠ "" ∧ i.password = i.confirm)

/-- Every primitive's class effect leaves the input without both classes. -/
theorem applyValidationOp_not_both (i : InputClasses) (op : ValidationOp) :
    ¬((applyValidationOp i op).hasError = true ∧
      (applyValidationOp i op).hasSuccess = true) := by
  cases op <;>
    simp [applyValidationOp, showErrorClasses, showSuccessClasses,
      clearValidationClasses]

/-- The not-both-classes invariant is preserved by any run of primitives. -/
theorem foldl_validation_invariant (ops : List ValidationOp) (s : InputClasses)
    (h : ¬(s.hasError = true ∧ s.hasSuccess = true)) :
    ¬((ops.foldl applyValidationOp s).hasError = true ∧
      (ops.foldl applyValidationOp s).hasSuccess = true) := by
  induction ops generalizing s with
  | nil => simpa using h
  | cons op rest ih => exact ih _ (applyValidationOp_not_both s op)

/-- C5: for every input field and every sequence of calls to `showError`,
`showSuccess` and `clearValidation`, exactly one of the visual states
error, success, neutral holds at a time; in particular no field ever
carries the `error` and `success` classes simultaneously. -/
theorem field_tri_state_invariant (ops : List ValidationOp) :
    ((runValidationOps ops).hasError = true ∧
      (runValidationOps ops).hasSuccess = false) ∨
    ((runValidationOps ops).hasError = false ∧
      (runValidationOps ops).hasSuccess = true) ∨
    ((runValidationOps ops).hasError = false ∧
      (runValidationOps ops).hasSuccess = false) := by
  have h := foldl_validation_invariant ops
    { hasError := false, hasSuccess := false } (by simp)
  unfold runValidationOps
  cases hE : (ops.foldl applyValidationOp
      { hasError := false, hasSuccess := false }).hasError <;>
    cases hS : (ops.foldl applyValidationOp
        { hasError := false, hasSuccess := false }).hasSuccess <;>
      simp_all

/-- Witness for C5 at a concrete call sequence. -/
theorem field_tri_state_invariant_witness :
    ((runValidationOps [ValidationOp.opError "Name is required",
        ValidationOp.opSuccess]).hasError = true ∧
      (runValidationOps [ValidationOp.opError "Name is required",
        ValidationOp.opSuccess]).hasSuccess = false) ∨
    ((runValidationOps [ValidationOp.opError "Name is required",
        ValidationOp.opSuccess]).hasError = false ∧
      (runValidationOps [ValidationOp.opError "Name is required",
        ValidationOp.opSuccess]).hasSuccess = true) ∨
    ((runValidationOps [ValidationOp.opError "Name is required",
        ValidationOp.opSuccess]).hasError = false ∧
      (runValidationOps [ValidationOp.opError "Name is required",
        ValidationOp.opSuccess]).hasSuccess = false) :=
  field_tri_state_invariant
    [ValidationOp.opError "Name is required", ValidationOp.opSuccess]

/-- One alert event keeps the attached-alert count at most one. -/
theorem applyAlertEvent_length_le (s : List Alert) (e : AlertEvent)
    (h : s.length ≤ 1) : (applyAlertEvent s e).length ≤ 1 := by
  cases e with
  | showCall t m => simp [applyAlertEvent, showAlert]
  | dismiss a =>
      exact le_trans (List.Sublist.length_le (List.erase_sublist a s)) h

/-- The at-most-one-alert invariant is preserved by any event run. -/
theorem foldl_alert_invariant (events : List AlertEvent) (s : List Alert)
    (h : s.length ≤ 1) : (events.foldl applyAlertEvent s).length ≤ 1 := by
  induction events generalizing s with
  | nil => simpa using h
  | cons e rest ih => exact ih _ (applyAlertEvent_length_le s e h)

/-- C6: `showAlert` removes every existing alert before creating the new
one, so after any sequence of show and dismiss events at most one alert
element exists in the document. -/
theorem show_alert_evicts_prior (alerts : List Alert) (type : AlertKind)
    (message : String) (events : List AlertEvent) :
    showAlert alerts type message = [{ kind := type, message := message }] ∧
    (runAlertEvents events).length ≤ 1 := by
  constructor
  · simp [showAlert]
  · exact foldl_alert_invariant events [] (by simp)

/-- Witness for C6 at a concrete prior-alert list and event sequence. -/
theorem show_alert_evicts_prior_witness :
    showAlert [{ kind := AlertKind.error, message := "Failed to copy" }]
        AlertKind.success "Copied to clipboard!" =
      [{ kind := AlertKind.success, message := "Copied to clipboard!" }] ∧
    (runAlertEvents [AlertEvent.showCall AlertKind.info "a",
        AlertEvent.showCall AlertKind.success "b"]).length ≤ 1 :=
  show_alert_evicts_prior
    [{ kind := AlertKind.error, message := "Failed to copy" }]
    AlertKind.success "Copied to clipboard!"
    [AlertEvent.showCall AlertKind.info "a",
      AlertEvent.showCall AlertKind.success "b"]

/-- C7: a rejected asynchronous clipboard write is caught and the
synchronous fallback attempted, in both copy triggers; the fallback's
`execCommand` throwing yields an error toast, its success a success
toast. -/
theorem clipboard_reject_uses_fallback (env : CopyEnv) (text : String)
    (hAvail : env.clipboardAvailable = true)
    (hRej : env.asyncWriteSucceeds = false) :
    (dataCopyClick env text).usedFallback = true ∧
    (copyToClipboard env text).usedFallback = true ∧
    (env.execCommandThrows = true →
      (dataCopyClick env text).toasts =
        [{ kind := .error, message := "Failed to copy" }] ∧
      (copyToClipboard env text).toasts =
        [{ kind := .error, message := "Failed to copy" }]) ∧
    (env.execCommandThrows = false →
      (dataCopyClick env text).toasts =
        [{ kind := .success, message := "Copied to clipboard!" }] ∧
      (copyToClipboard env text).toasts =
        [{ kind := .success, message := "Copied to clipboard!" }]) := by
  obtain ⟨ca, aw, et⟩ := env
  simp only at hAvail hRej
  subst hAvail; subst hRej
  cases et <;> simp [dataCopyClick, copyToClipboard, fallbackCopy]

/-- Witness for C7: secure context, rejected write, throwing fallback. -/
theorem clipboard_reject_uses_fallback_witness :
    (dataCopyClick ⟨true, false, true⟩ "sk_live_abc123").usedFallback = true ∧
    (dataCopyClick ⟨true, false, true⟩ "sk_live_abc123").toasts =
      [{ kind := .error, message := "Failed to copy" }] :=
  ⟨(clipboard_reject_uses_fallback ⟨true, false, true⟩
      "sk_live_abc123" rfl rfl).1,
    ((clipboard_reject_uses_fallback ⟨true, false, true⟩
      "sk_live_abc123" rfl rfl).2.2.1 rfl).1⟩

/-- C10: the field primitives require a `.form-group` ancestor — without
one the call throws before changing anything — while a missing
`.error-message` child is tolerated: classes are still updated and the
message update is skipped. -/
theorem validation_primitives_form_group (d : FieldDom) (message : String) :
    (d.formGroup = none →
      showError d message = none ∧ showSuccess d = none ∧
        clearValidation d = none) ∧
    (d.formGroup = some none →
      showError d message =
        some { input := showErrorClasses d.input, formGroup := some none } ∧
      showSuccess d =
        some { input := showSuccessClasses d.input, formGroup := some none } ∧
      clearValidation d =
        some { input := clearValidationClasses d.input,
               formGroup := some none }) := by
  constructor <;> intro h <;>
    simp [showError, showSuccess, clearValidation, h]

/-- Witness for C10 at a concrete orphan input and a concrete group
without a message element. -/
theorem validation_primitives_form_group_witness :
    showError ⟨⟨false, false⟩, none⟩ "Name is required" = none ∧
    showSuccess ⟨⟨false, false⟩, some none⟩ =
      some ⟨⟨false, true⟩, some none⟩ :=
  ⟨(validation_primitives_form_group ⟨⟨false, false⟩, none⟩
      "Name is required").1 rfl |>.1,
    (validation_primitives_form_group ⟨⟨false, false⟩, some none⟩
      "Name is required").2 rfl |>.2.1⟩

/-- C3: the strength score is the length point plus one point per
character-class check; scores 0–1, 2–3 and 4 map to weak, medium and
strong; for fixed length at least 8 the score is monotone in class
diversity; and the three spec examples land on weak, medium and strong. -/
theorem password_strength_spec (p q : String) :
    strengthScore p = (if 8 ≤ p.length then 1 else 0) + classDiversity p ∧
    (strengthScore p ≤ 1 → p.length ≠ 0 →
      updatePasswordStrength p = some StrengthLevel.weak) ∧
    (2 ≤ strengthScore p → strengthScore p ≤ 3 → p.length ≠ 0 →
      updatePasswordStrength p = some StrengthLevel.medium) ∧
    (strengthScore p = 4 → p.length ≠ 0 →
      updatePasswordStrength p = some StrengthLevel.strong) ∧
    (8 ≤ p.length → 8 ≤ q.length → classDiversity p ≤ classDiversity q →
      strengthScore p ≤ strengthScore q) ∧
    updatePasswordStrength "aaaaaaaa" = some StrengthLevel.weak ∧
    updatePasswordStrength "Aaaaaaaa1" = some StrengthLevel.medium ∧
    updatePasswordStrength "Aaaaaaaa1!" = some StrengthLevel.strong := by
  refine ⟨?_, ?_, ?_, ?_, ?_, by decide, by decide, by decide⟩
  · unfold strengthScore classDiversity
    split_ifs <;> omega
  · intro h1 h0
    unfold updatePasswordStrength
    rw [if_neg h0, if_pos h1]
  · intro h2 h3 h0
    unfold updatePasswordStrength
    rw [if_neg h0, if_neg (by omega), if_pos h3]
  · intro h4 h0
    unfold updatePasswordStrength
    rw [if_neg h0, if_neg (by omega), if_neg (by omega)]
  · intro hp hq hdiv
    have hdp : strengthScore p = 1 + classDiversity p := by
      unfold strengthScore classDiversity
      rw [if_pos hp]
      omega
    have hdq : strengthScore q = 1 + classDiversity q := by
      unfold strengthScore classDiversity
      rw [if_pos hq]
      omega
    omega

/-- Witness for C3: the medium example and the weak-to-strong monotone
step, with each hypothesis discharged concretely. -/
theorem password_strength_spec_witness :
    strengthScore "Aaaaaaaa1" ≤ strengthScore "Aaaaaaaa1!" ∧
    updatePasswordStrength "Aaaaaaaa1" = some StrengthLevel.medium :=
  ⟨(password_strength_spec "Aaaaaaaa1" "Aaaaaaaa1!").2.2.2.2.1
      (by decide) (by decide) (by decide),
    (password_strength_spec "Aaaaaaaa1" "Aaaaaaaa1!").2.2.1
      (by decide) (by decide) (by decide)⟩

/-- The contact name check succeeds exactly on non-blank names. -/
theorem contactNameState_success_iff (v : String) :
    contactNameState v = FieldState.success ↔ jsTrim v ≠ "" := by
  unfold contactNameState
  split_ifs with h <;> simp [h]

/-- The contact email check succeeds exactly on non-blank values passing
the regex. -/
theorem contactEmailState_success_iff (v : String) :
    contactEmailState v = FieldState.success ↔
      (jsTrim v ≠ "" ∧ validateEmail v = true) := by
  unfold contactEmailState
  split_ifs with h1 h2 <;> simp_all

/-- The contact subject check succeeds exactly on non-empty raw values. -/
theorem contactSubjectState_success_iff (v : String) :
    contactSubjectState v = FieldState.success ↔ v ≠ "" := by
  unfold contactSubjectState
  split_ifs with h <;> simp [h]

/-- The contact message check succeeds exactly on non-blank messages of
trimmed length at least 10. -/
theorem contactMessageState_success_iff (v : String) :
    contactMessageState v = FieldState.success ↔
      (jsTrim v ≠ "" ∧ 10 ≤ (jsTrim v).length) := by
  unfold contactMessageState
  split_ifs with h1 h2 <;> simp_all

/-- The handler's `isValid` flag coincides with the four field
conditions. -/
theorem contactSubmit_valid_iff (i : ContactInput) :
    (contactNameState i.name = FieldState.success ∧
      contactEmailState i.email = FieldState.success ∧
      contactSubjectState i.subject = FieldState.success ∧
      contactMessageState i.message = FieldState.success) ↔
      contactFieldsValid i := by
  rw [contactNameState_success_iff, contactEmailState_success_iff,
    contactSubjectState_success_iff, contactMessageState_success_iff]

/-- C1: a success alert is shown exactly when all four contact fields are
valid; a valid submission shows exactly one success alert, resets the
form and clears every field to neutral; an invalid one shows no alert,
does not reset, marks each failing field with its error message and each
passing field as success. -/
theorem contact_submission_spec (i : ContactInput) :
    ((contactSubmit i).alerts ≠ [] ↔ contactFieldsValid i) ∧
    (contactFieldsValid i →
      (contactSubmit i).alerts =
        [{ kind := AlertKind.success,
           message := "Thank you! Your message has been sent successfully." }] ∧
      (contactSubmit i).didReset = true ∧
      (contactSubmit i).nameState = FieldState.neutral ∧
      (contactSubmit i).emailState = FieldState.neutral ∧
      (contactSubmit i).subjectState = FieldState.neutral ∧
      (contactSubmit i).messageState = FieldState.neutral) ∧
    (¬contactFieldsValid i →
      (contactSubmit i).alerts = [] ∧
      (contactSubmit i).didReset = false ∧
      (jsTrim i.name = "" →
        (contactSubmit i).nameState = FieldState.error "Name is required") ∧
      (jsTrim i.name ≠ "" →
        (contactSubmit i).nameState = FieldState.success) ∧
      (jsTrim i.email = "" →
        (contactSubmit i).emailState = FieldState.error "Email is required") ∧
      (jsTrim i.email ≠ "" → validateEmail i.email = false →
        (contactSubmit i).emailState =
          FieldState.error "Please enter a valid email") ∧
      (jsTrim i.email ≠ "" → validateEmail i.email = true →
        (contactSubmit i).emailState = FieldState.success) ∧
      (i.subject = "" →
        (contactSubmit i).subjectState =
          FieldState.error "Please select a subject") ∧
      (i.subject ≠ "" →
        (contactSubmit i).subjectState = FieldState.success) ∧
      (jsTrim i.message = "" →
        (contactSubmit i).messageState =
          FieldState.error "Message is required") ∧
      (jsTrim i.message ≠ "" → (jsTrim i.message).length < 10 →
        (contactSubmit i).messageState =
          FieldState.error "Message must be at least 10 characters") ∧
      (jsTrim i.message ≠ "" → 10 ≤ (jsTrim i.message).length →
        (contactSubmit i).messageState = FieldState.success)) := by
  by_cases hv : contactFieldsValid i
  · have hcond := (contactSubmit_valid_iff i).mpr hv
    unfold contactSubmit
    rw [if_pos hcond]
    exact ⟨⟨fun _ => hv, fun _ => by simp⟩,
      fun _ => ⟨rfl, rfl, rfl, rfl, rfl, rfl⟩,
      fun hnv => absurd hv hnv⟩
  · have hcond : ¬(contactNameState i.name = FieldState.success ∧
        contactEmailState i.email = FieldState.success ∧
        contactSubjectState i.subject = FieldState.success ∧
        contactMessageState i.message = FieldState.success) :=
      fun h => hv ((contactSubmit_valid_iff i).mp h)
    unfold contactSubmit
    rw [if_neg hcond]
    refine ⟨⟨fun ha => absurd rfl ha, fun hv' => absurd hv' hv⟩,
      fun hv' => absurd hv' hv,
      fun _ => ⟨rfl, rfl, ?_, ?_, ?_, ?_, ?_, ?_, ?_, ?_, ?_, ?_⟩⟩
    · intro h; simp [contactNameState, h]
    · intro h; simp [contactNameState, h]
    · intro h; simp [contactEmailState, h]
    · intro h1 h2; simp [contactEmailState, h1, h2]
    · intro h1 h2; simp [contactEmailState, h1, h2]
    · intro h; simp [contactSubjectState, h]
    · intro h; simp [contactSubjectState, h]
    · intro h; simp [contactMessageState, h]
    · intro h1 h2; simp [contactMessageState, h1, h2]
    · intro h1 h2; simp [contactMessageState, h1, h2, Nat.not_lt.mpr h2]

/-- Witness for C1: the spec's valid example and the 9-character message
example, with hypotheses discharged concretely. -/
theorem contact_submission_spec_witness :
    ((contactSubmit ⟨"Jane", "jane@x.com", "General",
        "Hello there, this is long enough."⟩).alerts =
      [{ kind := AlertKind.success,
         message := "Thank you! Your message has been sent successfully." }]) ∧
    ((contactSubmit ⟨"Jane", "jane@x.com", "General",
        "short msg"⟩).alerts = []) ∧
    ((contactSubmit ⟨"Jane", "jane@x.com", "General",
        "short msg"⟩).messageState =
      FieldState.error "Message must be at least 10 characters") :=
  ⟨((contact_submission_spec ⟨"Jane", "jane@x.com", "General",
      "Hello there, this is long enough."⟩).2.1 (by decide)).1,
    ((contact_submission_spec ⟨"Jane", "jane@x.com", "General",
      "short msg"⟩).2.2 (by decide)).1,
    (((contact_submission_spec ⟨"Jane", "jane@x.com", "General",
      "short msg"⟩).2.2
      (by decide)).2.2.2.2.2.2.2.2.2.2.1 (by decide) (by decide))⟩

/-- The signup name check succeeds exactly on non-blank names. -/
theorem signupNameState_success_iff (v : String) :
    signupNameState v = FieldState.success ↔ jsTrim v ≠ "" := by
  unfold signupNameState
  split_ifs with h <;> simp [h]

/-- The signup email check succeeds exactly on non-blank values passing
the regex. -/
theorem signupEmailState_success_iff (v : String) :
    signupEmailState v = FieldState.success ↔
      (jsTrim v ≠ "" ∧ validateEmail v = true) := by
  unfold signupEmailState
  split_ifs with h1 h2 <;> simp_all

/-- The signup password check succeeds exactly on non-blank values of
length at least 8. -/
theorem signupPasswordState_success_iff (v : String) :
    signupPasswordState v = FieldState.success ↔
      (jsTrim v ≠ "" ∧ validatePassword v = true) := by
  unfold signupPasswordState
  split_ifs with h1 h2 <;> simp_all

/-- The signup confirm check succeeds exactly on non-blank confirmations
equal to the password. -/
theorem signupConfirmState_success_iff (p v : String) :
    signupConfirmState p v = FieldState.success ↔
      (jsTrim v ≠ "" ∧ p = v) := by
  unfold signupConfirmState
  split_ifs with h1 h2 <;> simp_all

/-- The signup handler's `isValid` flag coincides with the four field
conditions. -/
theorem signupSubmit_valid_iff (i : SignupInput) :
    (signupNameState i.name = FieldState.success ∧
      signupEmailState i.email = FieldState.success ∧
      signupPasswordState i.password = FieldState.success ∧
      signupConfirmState i.password i.confirm = FieldState.success) ↔
      signupFieldsValid i := by
  rw [signupNameState_success_iff, signupEmailState_success_iff,
    signupPasswordState_success_iff, signupConfirmState_success_iff]

/-- The signup handler passes the password field's computed state through
unchanged in both branches. -/
theorem signupSubmit_passwordState (i : SignupInput) :
    (signupSubmit i).passwordState = signupPasswordState i.password := by
  unfold signupSubmit
  split_ifs <;> rfl

/-- The signup handler passes the confirm field's computed state through
unchanged in both branches. -/
theorem signupSubmit_confirmState (i : SignupInput) :
    (signupSubmit i).confirmState =
      signupConfirmState i.password i.confirm := by
  unfold signupSubmit
  split_ifs <;> rfl

/-- C9: a valid signup submission resets the form but, unlike the contact
form, does not clear the validation states — all four signup fields keep
their success state, while the contact form's valid submission leaves all
fields neutral. -/
theorem signup_reset_keeps_success_states (i : SignupInput)
    (j : ContactInput) :
    (signupFieldsValid i →
      (signupSubmit i).didReset = true ∧
      (signupSubmit i).nameState = FieldState.success ∧
      (signupSubmit i).emailState = FieldState.success ∧
      (signupSubmit i).passwordState = FieldState.success ∧
      (signupSubmit i).confirmState = FieldState.success) ∧
    (contactFieldsValid j →
      (contactSubmit j).didReset = true ∧
      (contactSubmit j).nameState = FieldState.neutral ∧
      (contactSubmit j).emailState = FieldState.neutral ∧
      (contactSubmit j).subjectState = FieldState.neutral ∧
      (contactSubmit j).messageState = FieldState.neutral) := by
  constructor
  · intro hv
    have hcond := (signupSubmit_valid_iff i).mpr hv
    unfold signupSubmit
    rw [if_pos hcond]
    exact ⟨rfl, hcond.1, hcond.2.1, hcond.2.2.1, hcond.2.2.2⟩
  · intro hv
    have hcond := (contactSubmit_valid_iff j).mpr hv
    unfold contactSubmit
    rw [if_pos hcond]
    exact ⟨rfl, rfl, rfl, rfl, rfl⟩

/-- Witness for C9 at the concrete valid signup and contact examples. -/
theorem signup_reset_keeps_success_states_witness :
    (signupSubmit ⟨"Jane", "jane@x.com", "Secret1!", "Secret1!"⟩).didReset
        = true ∧
    (signupSubmit ⟨"Jane", "jane@x.com", "Secret1!",
        "Secret1!"⟩).passwordState = FieldState.success ∧
    (contactSubmit ⟨"Jane", "jane@x.com", "General",
        "Hello there, this is long enough."⟩).nameState =
      FieldState.neutral :=
  ⟨((signup_reset_keeps_success_states
      ⟨"Jane", "jane@x.com", "Secret1!", "Secret1!"⟩
      ⟨"Jane", "jane@x.com", "General",
        "Hello there, this is long enough."⟩).1 (by decide)).1,
    ((signup_reset_keeps_success_states
      ⟨"Jane", "jane@x.com", "Secret1!", "Secret1!"⟩
      ⟨"Jane", "jane@x.com", "General",
        "Hello there, this is long enough."⟩).1 (by decide)).2.2.2.1,
    ((signup_reset_keeps_success_states
      ⟨"Jane", "jane@x.com", "Secret1!", "Secret1!"⟩
      ⟨"Jane", "jane@x.com", "General",
        "Hello there, this is long enough."⟩).2 (by decide)).2.1⟩

/-- C4 counterexample: the empty password has length below 8, yet the
signup validator rejects it with the blank-password message, not the
length message. -/
theorem signup_password_length_message_counterexample :
    ("" : String).length < 8 ∧
    (signupSubmit ⟨"", "", "", ""⟩).passwordState =
      FieldState.error "Password is required" ∧
    (signupSubmit ⟨"", "", "", ""⟩).passwordState ≠
      FieldState.error "Password must be at least 8 characters" := by
  decide

/-- C4 (amended): a non-blank password of length below 8 is rejected with
the length message, a blank one with the required message, and any pair
of unequal non-empty password and confirmation values rejects the
confirm field. -/
theorem signup_password_and_confirm_checks (i : SignupInput) :
    (jsTrim i.password ≠ "" → i.password.length < 8 →
      (signupSubmit i).passwordState =
        FieldState.error "Password must be at least 8 characters") ∧
    (jsTrim i.password = "" →
      (signupSubmit i).passwordState =
        FieldState.error "Password is required") ∧
    (i.password ≠ "" → i.confirm ≠ "" → i.password ≠ i.confirm →
      ((signupSubmit i).confirmState).isError = true) := by
  rw [signupSubmit_passwordState, signupSubmit_confirmState]
  refine ⟨?_, ?_, ?_⟩
  · intro h1 h2
    have hvp : validatePassword i.password = false := by
      simp [validatePassword]
      omega
    simp [signupPasswordState, h1, hvp]
  · intro h
    simp [signupPasswordState, h]
  · intro _ _ hne
    unfold signupConfirmState
    split_ifs with h1
    · rfl
    · rfl

/-- Witness for C4 at a concrete short password and a concrete unequal
confirmation. -/
theorem signup_password_and_confirm_checks_witness :
    (signupSubmit ⟨"Jane", "jane@x.com", "abc", "abc"⟩).passwordState =
      FieldState.error "Password must be at least 8 characters" ∧
    ((signupSubmit ⟨"Jane", "jane@x.com", "Secret1!",
        "Secret2!"⟩).confirmState).isError = true :=
  ⟨(signup_password_and_confirm_checks
      ⟨"Jane", "jane@x.com", "abc", "abc"⟩).1 (by decide) (by decide),
    (signup_password_and_confirm_checks
      ⟨"Jane", "jane@x.com", "Secret1!", "Secret2!"⟩).2.2
      (by decide) (by decide) (by decide)⟩

/-- A string accepted by the email regex splits at its first `@` into a
local part and a domain part of `[^\s@]` characters, the domain holding
an interior dot. -/
theorem validateEmailL_true_elim {cs : List Char}
    (h : validateEmailL cs = true) :
    ∃ localPart domainPart,
      cs = localPart ++ '@' :: domainPart ∧
      cs.dropWhile (· != '@') = '@' :: domainPart ∧
      localPart.all emailCharOk = true ∧
      domainPart.all emailCharOk = true ∧
      '.' ∈ (domainPart.drop 1).dropLast := by
  unfold validateEmailL at h
  split at h
  case h_2 => exact absurd h (by simp)
  case h_1 domainPart heq =>
    simp only [Bool.and_eq_true] at h
    refine ⟨cs.takeWhile (· != '@'), domainPart, ?_, heq, h.1.2, h.2.1.2, ?_⟩
    · conv_lhs => rw [← List.takeWhile_append_dropWhile (· != '@') cs]
      rw [heq]
    · exact List.mem_of_elem_eq_true h.2.2

/-- C2: every string with no `@`, or with no `.` anywhere after its first
`@`, is rejected by the email validator. -/
theorem email_validator_rejects (email : String)
    (h : '@' ∉ email.toList ∨
      '.' ∉ (email.toList.dropWhile (· != '@')).drop 1) :
    validateEmail email = false := by
  cases hb : validateEmail email with
  | false => rfl
  | true =>
    exfalso
    obtain ⟨l, d, hcs, hdw, _, _, hdot⟩ := validateEmailL_true_elim hb
    rcases h with hAt | hDot
    · exact hAt (hcs ▸ List.mem_append_right l (List.mem_cons_self '@' d))
    · apply hDot
      rw [hdw]
      exact ((List.dropLast_sublist _).trans (List.drop_sublist 1 d)).subset hdot

/-- Witness for C2: a string without `@` and a string whose only dot
precedes its `@` are both rejected. -/
theorem email_validator_rejects_witness :
    validateEmail "plainaddress" = false ∧
    validateEmail "first.last@examplecom" = false :=
  ⟨email_validator_rejects "plainaddress" (Or.inl (by decide)),
    email_validator_rejects "first.last@examplecom" (Or.inr (by decide))⟩

/-- `dropWhile` is the identity when no element satisfies the
predicate. -/
theorem dropWhile_eq_self_of_forall {p : Char → Bool} {l : List Char}
    (h : ∀ c ∈ l, p c = false) : l.dropWhile p = l := by
  cases l with
  | nil => rfl
  | cons a t =>
      rw [List.dropWhile_cons, h a (List.mem_cons_self a t)]
      simp

/-- A string with no whitespace character is unchanged by trimming. -/
theorem jsTrimL_eq_self {cs : List Char}
    (h : ∀ c ∈ cs, isJsSpace c = false) : jsTrimL cs = cs := by
  unfold jsTrimL
  rw [dropWhile_eq_self_of_forall h,
    dropWhile_eq_self_of_forall (fun c hc => h c (List.mem_reverse.mp hc)),
    List.reverse_reverse]

/-- A whitespace character anywhere in the string defeats the email
regex, whose three pieces all draw from `[^\s@]`. -/
theorem validateEmailL_ws_false {cs : List Char} {c : Char}
    (hc : c ∈ cs) (hws : isJsSpace c = true) : validateEmailL cs = false := by
  cases hb : validateEmailL cs with
  | false => rfl
  | true =>
    exfalso
    obtain ⟨l, d, hcs, _, hl, hd, _⟩ := validateEmailL_true_elim hb
    subst hcs
    rcases List.mem_append.mp hc with h1 | h2
    · have := List.all_eq_true.mp hl c h1
      simp [emailCharOk, hws] at this
    · rcases List.mem_cons.mp h2 with rfl | h3
      · exact absurd hws (by decide)
      · have := List.all_eq_true.mp hd c h3
        simp [emailCharOk, hws] at this

/-- C8: the forms test the email regex against the raw, untrimmed value,
so a value whose trimmed form matches but which carries leading or
trailing whitespace is rejected, and all three forms mark the field with
the invalid-email error. -/
theorem email_raw_value_whitespace_rejected (email : String)
    (hmatch : validateEmail (jsTrim email) = true)
    (hne : email ≠ jsTrim email) :
    validateEmail email = false ∧
    contactEmailState email = FieldState.error "Please enter a valid email" ∧
    loginEmailState email = FieldState.error "Please enter a valid email" ∧
    signupEmailState email = FieldState.error "Please enter a valid email" := by
  have hex : ∃ c ∈ email.toList, isJsSpace c = true := by
    by_contra hno
    push_neg at hno
    have hall : ∀ c ∈ email.toList, isJsSpace c = false := fun c hc => by
      cases h : isJsSpace c with
      | false => rfl
      | true => exact absurd h (hno c hc)
    apply hne
    show email = String.mk (jsTrimL email.toList)
    rw [jsTrimL_eq_self hall]
    cases email
    rfl
  obtain ⟨c, hc, hws⟩ := hex
  have hfalse : validateEmail email = false := validateEmailL_ws_false hc hws
  have htrimne : jsTrim email ≠ "" := by
    intro h0
    rw [h0] at hmatch
    exact absurd hmatch (by decide)
  exact ⟨hfalse,
    by simp [contactEmailState, htrimne, hfalse],
    by simp [loginEmailState, htrimne, hfalse],
    by simp [signupEmailState, htrimne, hfalse]⟩

/-- Witness for C8: an address valid after trimming but carrying a
leading space. -/
theorem email_raw_value_whitespace_rejected_witness :
    validateEmail " jane@x.com" = false ∧
    contactEmailState " jane@x.com" =
      FieldState.error "Please enter a valid email" :=
  ⟨(email_raw_value_whitespace_rejected " jane@x.com"
      (by decide) (by decide)).1,
    (email_raw_value_whitespace_rejected " jane@x.com"
      (by decide) (by decide)).2.1⟩
